import Mathlib

/-!
Verification of the plan-generation request pipeline of the Fitness-Coach web
application.  The definitions below are a shallow embedding of the JavaScript
source (src/services/aiService.js and the multi-step input form of the app),
translated function by function; theorems at the end of the file settle the
frozen claims about that code.

Modelling conventions:
* JavaScript exceptions are `Except` values; an upstream error object carries
  an optional HTTP status (`UpErr`).
* The nondeterministic upstream endpoint is a function `Nat → Except UpErr
  ChatResponse` giving the outcome of each successive attempt.
* JavaScript numbers that the code compares and parses are modelled exactly,
  as `ℚ` (`parseFloat` on the digit/dot strings the form admits is exact up to
  binary rounding, which never affects the sign tests the code performs).
-/

set_option maxRecDepth 20000

namespace FitnessCoach

/-- An error thrown by the upstream call, as the retry helper sees it:
`status` is the optional HTTP status property of the error object
(`none` models an absent/undefined status, i.e. a network-level failure). -/
structure UpErr where
  status : Option Nat
deriving DecidableEq, Repr

/-- The retryability test of `retryWithBackoff` (aiService.js line 38):
`!error.status || error.status >= 500 || error.status === 429`.
JavaScript truthiness makes `!error.status` true both when the status
property is absent and when it equals 0. -/
def isRetryable (e : UpErr) : Bool :=
  match e.status with
  | none => true
  | some s => s == 0 || 500 ≤ s || s == 429

/-- `retryWithBackoff(operation, retries, delay)` (aiService.js lines 31-47),
instrumented: besides the final outcome it returns the number of attempts made
and the list of back-off delays awaited, so the schedule is provable.
`beh i` is the outcome of the `i`-th call of `operation` counted from this
invocation.  The source decrements `retries`, throws when `retries <= 0` or
the error is not retryable, and otherwise waits `delay` ms and recurses with
`delay * 2`; the `retries <= 0` guard becomes the zero case of the natural
retry count (call sites pass 3 and 2). -/
def retryWithBackoff {α : Type} :
    (Nat → Except UpErr α) → Nat → Nat → Except UpErr α × Nat × List Nat
  | beh, retries, delay =>
    match beh 0 with
    | Except.ok a => (Except.ok a, 1, [])
    | Except.error e =>
      match retries with
      | 0 => (Except.error e, 1, [])
      | r + 1 =>
        if isRetryable e = false then (Except.error e, 1, [])
        else
          let rest := retryWithBackoff (fun i => beh (i + 1)) r (delay * 2)
          (rest.1, rest.2.1 + 1, delay :: rest.2.2)

/-- The delay schedule produced by `n` retries starting at `delay` with the
source's fixed doubling: `[delay, delay*2, delay*4, ...]`. -/
def backoffDelays (delay : Nat) : Nat → List Nat
  | 0 => []
  | n + 1 => delay :: backoffDelays (delay * 2) n

/-! ## JSON values and `JSON.parse`

`generateFitnessPlan` hands the response body to the built-in `JSON.parse`
and returns whatever it yields, falling back when it throws.  We model JSON
values and a strict recursive-descent parse with exact rational numbers. -/

/-- A JSON value. -/
inductive JValue where
  | null
  | bool (b : Bool)
  | num (q : ℚ)
  | str (s : String)
  | arr (elems : List JValue)
  | obj (fields : List (String × JValue))

/-- JSON whitespace. -/
def isJsonWs (c : Char) : Bool :=
  c = ' ' || c = '\t' || c = '\n' || c = '\r'

/-- Drop leading JSON whitespace. -/
def skipWs : List Char → List Char
  | [] => []
  | c :: r => if isJsonWs c then skipWs r else c :: r

/-- Numeric value of a digit list read in base 10. -/
def natOfDigits (l : List Char) : Nat :=
  l.foldl (fun a c => 10 * a + (c.toNat - 48)) 0

/-- Value of a hexadecimal digit, if any. -/
def hexVal (c : Char) : Option Nat :=
  if '0' ≤ c ∧ c ≤ '9' then some (c.toNat - 48)
  else if 'a' ≤ c ∧ c ≤ 'f' then some (c.toNat - 87)
  else if 'A' ≤ c ∧ c ≤ 'F' then some (c.toNat - 55)
  else none

/-- Parse the body of a JSON string after the opening quote, handling the
escape sequences JSON admits; returns the decoded string and the input
following the closing quote. -/
def parseStringBody : List Char → Option (List Char × List Char)
  | [] => none
  | '"' :: rest => some ([], rest)
  | '\\' :: e :: rest =>
    match e with
    | '"' => (parseStringBody rest).map (fun p => ('"' :: p.1, p.2))
    | '\\' => (parseStringBody rest).map (fun p => ('\\' :: p.1, p.2))
    | '/' => (parseStringBody rest).map (fun p => ('/' :: p.1, p.2))
    | 'b' => (parseStringBody rest).map (fun p => ('\x08' :: p.1, p.2))
    | 'f' => (parseStringBody rest).map (fun p => ('\x0c' :: p.1, p.2))
    | 'n' => (parseStringBody rest).map (fun p => ('\n' :: p.1, p.2))
    | 'r' => (parseStringBody rest).map (fun p => ('\r' :: p.1, p.2))
    | 't' => (parseStringBody rest).map (fun p => ('\t' :: p.1, p.2))
    | 'u' =>
      match rest with
      | a :: b :: c :: d :: rest2 =>
        match hexVal a, hexVal b, hexVal c, hexVal d with
        | some x, some y, some z, some w =>
          let code := ((x * 16 + y) * 16 + z) * 16 + w
          (parseStringBody rest2).map (fun p => (Char.ofNat code :: p.1, p.2))
        | _, _, _, _ => none
      | _ => none
    | _ => none
  | c :: rest =>
    if c.toNat < 32 then none
    else (parseStringBody rest).map (fun p => (c :: p.1, p.2))

/-- Parse an unsigned decimal integer part; fails on an empty digit run. -/
def parseDigits : List Char → Option (List Char × List Char)
  | l =>
    let ds := l.takeWhile Char.isDigit
    if ds.isEmpty then none else some (ds, l.drop ds.length)

/-- Parse a JSON number (sign, integer part, optional fraction, optional
exponent) with exact rational value. -/
def parseNumber (l : List Char) : Option (ℚ × List Char) := do
  let (neg, l1) := match l with
    | '-' :: r => (true, r)
    | _ => (false, l)
  let (ints, l2) ← parseDigits l1
  -- JSON forbids leading zeros in the integer part
  let _ ← (if 2 ≤ ints.length ∧ ints.headD ' ' = '0' then none else some ())
  let (frac, l3) := match l2 with
    | '.' :: r =>
      match parseDigits r with
      | some (ds, r2) => (ds, r2)
      | none => ([], '.' :: r)
    | _ => ([], l2)
  let pe : Option Int × List Char := match l3 with
    | 'e' :: r | 'E' :: r =>
      match r with
      | '-' :: r2 =>
        (match parseDigits r2 with
         | some (ds, r3) => (some (-(natOfDigits ds : Int)), r3)
         | none => (none, l3))
      | '+' :: r2 =>
        (match parseDigits r2 with
         | some (ds, r3) => (some ((natOfDigits ds : Int)), r3)
         | none => (none, l3))
      | _ =>
        (match parseDigits r with
         | some (ds, r3) => (some ((natOfDigits ds : Int)), r3)
         | none => (none, l3))
    | _ => (some 0, l3)
  let e ← pe.1
  let mant : ℚ := (natOfDigits ints : ℚ) + (natOfDigits frac : ℚ) / ((10 : ℚ) ^ frac.length)
  let v : ℚ := (if neg then -mant else mant) * (10 : ℚ) ^ e
  pure (v, pe.2)

mutual

/-- Parse one JSON value at the head of the input (leading whitespace
allowed); `fuel` bounds recursion depth. -/
def parseValue : Nat → List Char → Option (JValue × List Char)
  | 0, _ => none
  | fuel + 1, l =>
    match skipWs l with
    | 'n' :: 'u' :: 'l' :: 'l' :: r => some (JValue.null, r)
    | 't' :: 'r' :: 'u' :: 'e' :: r => some (JValue.bool true, r)
    | 'f' :: 'a' :: 'l' :: 's' :: 'e' :: r => some (JValue.bool false, r)
    | '"' :: r => (parseStringBody r).map (fun p => (JValue.str (String.mk p.1), p.2))
    | '[' :: r =>
      (match skipWs r with
       | ']' :: r2 => some (JValue.arr [], r2)
       | _ => (parseElems fuel r).map (fun p => (JValue.arr p.1, p.2)))
    | '\x7b' :: r =>
      (match skipWs r with
       | '\x7d' :: r2 => some (JValue.obj [], r2)
       | _ => (parseMembers fuel r).map (fun p => (JValue.obj p.1, p.2)))
    | l2 => (parseNumber l2).map (fun p => (JValue.num p.1, p.2))

/-- Parse a non-empty comma-separated list of array elements and the closing
bracket. -/
def parseElems : Nat → List Char → Option (List JValue × List Char)
  | 0, _ => none
  | fuel + 1, l => do
    let (v, r) ← parseValue fuel l
    match skipWs r with
    | ',' :: r2 => (parseElems fuel r2).map (fun p => (v :: p.1, p.2))
    | ']' :: r2 => some ([v], r2)
    | _ => none

/-- Parse a non-empty comma-separated list of object members and the closing
brace. -/
def parseMembers : Nat → List Char → Option (List (String × JValue) × List Char)
  | 0, _ => none
  | fuel + 1, l =>
    match skipWs l with
    | '"' :: r => do
      let (key, r1) ← parseStringBody r
      match skipWs r1 with
      | ':' :: r2 => do
        let (v, r3) ← parseValue fuel r2
        match skipWs r3 with
        | ',' :: r4 => (parseMembers fuel r4).map (fun p => ((String.mk key, v) :: p.1, p.2))
        | '\x7d' :: r4 => some ([(String.mk key, v)], r4)
        | _ => none
      | _ => none
    | _ => none

end

/-- `JSON.parse`: strict parse of the whole string into a JSON value,
`none` when the built-in would throw a `SyntaxError`. -/
def jsonParse (s : String) : Option JValue :=
  match parseValue (s.length + 1) s.data with
  | some (v, rest) => if (skipWs rest).isEmpty then some v else none
  | none => none

/-! ## The chat-completion response and the plan pipeline -/

/-- The message of one completion choice; `content` is `none` when the
property is null/undefined. -/
structure Message where
  content : Option String
deriving DecidableEq

/-- One completion choice. -/
structure Choice where
  message : Message
deriving DecidableEq

/-- The completion object returned by
`openai.chat.completions.create`. -/
structure ChatResponse where
  choices : List Choice
deriving DecidableEq

/-- Provenance tag of the plan a pipeline run resolves to. -/
inductive Origin where
  | Generated
  | Fallback
deriving DecidableEq, Repr

/-- The ways the `try` block of `generateFitnessPlan` can throw
(aiService.js lines 165-186): the retry helper escalated an upstream error;
the response had no first choice (property access throws); the content was
null/undefined or `""` (the explicit `throw new Error` behind `if
(!content)`); or `JSON.parse` threw. -/
inductive PipeErr where
  | upstream (e : UpErr)
  | badResponse
  | emptyContent
  | parseFailure
deriving DecidableEq

/-- The `try` block of `generateFitnessPlan` (aiService.js lines 165-185):
run the upstream call through `retryWithBackoff(op, 2, 1000)`, take
`response.choices[0].message.content`, throw if `!content`, and return
`JSON.parse(content)`.  `beh i` is the upstream outcome of attempt `i`. -/
def planAttempt (beh : Nat → Except UpErr ChatResponse) : Except PipeErr JValue :=
  match (retryWithBackoff beh 2 1000).1 with
  | Except.error e => Except.error (PipeErr.upstream e)
  | Except.ok resp =>
    match resp.choices with
    | [] => Except.error PipeErr.badResponse
    | c :: _ =>
      match c.message.content with
      | none => Except.error PipeErr.emptyContent
      | some body =>
        if body = "" then Except.error PipeErr.emptyContent
        else
          match jsonParse body with
          | none => Except.error PipeErr.parseFailure
          | some v => Except.ok v

/-- The hard-coded fallback plan returned by the `catch` block of
`generateFitnessPlan` (aiService.js lines 197-295), transcribed verbatim. -/
def fallbackPlan : JValue :=
  JValue.obj [
    ("workout_plan", JValue.arr [
      JValue.obj [
        ("day", JValue.str "Monday"),
        ("focus", JValue.str "Full Body Power"),
        ("exercises", JValue.arr [
          JValue.obj [("name", JValue.str "Barbell Squats"), ("sets", JValue.str "4"),
            ("reps", JValue.str "8-10"), ("tips", JValue.str "Keep chest up and core tight")],
          JValue.obj [("name", JValue.str "Bench Press"), ("sets", JValue.str "3"),
            ("reps", JValue.str "10"), ("tips", JValue.str "Control the descent")],
          JValue.obj [("name", JValue.str "Bent Over Rows"), ("sets", JValue.str "3"),
            ("reps", JValue.str "12"), ("tips", JValue.str "Squeeze shoulder blades")],
          JValue.obj [("name", JValue.str "Plank"), ("sets", JValue.str "3"),
            ("reps", JValue.str "60s"), ("tips", JValue.str "Maintain straight line")]])],
      JValue.obj [
        ("day", JValue.str "Tuesday"),
        ("focus", JValue.str "Active Recovery"),
        ("exercises", JValue.arr [
          JValue.obj [("name", JValue.str "Light Jogging"), ("sets", JValue.str "1"),
            ("reps", JValue.str "20 mins"), ("tips", JValue.str "Keep comfortable pace")],
          JValue.obj [("name", JValue.str "Stretching Routine"), ("sets", JValue.str "1"),
            ("reps", JValue.str "15 mins"), ("tips", JValue.str "Focus on tight areas")]])],
      JValue.obj [
        ("day", JValue.str "Wednesday"),
        ("focus", JValue.str "Upper Body Strength"),
        ("exercises", JValue.arr [
          JValue.obj [("name", JValue.str "Overhead Press"), ("sets", JValue.str "3"),
            ("reps", JValue.str "10"), ("tips", JValue.str "Don\x27t arch back")],
          JValue.obj [("name", JValue.str "Pull Ups"), ("sets", JValue.str "3"),
            ("reps", JValue.str "Max"), ("tips", JValue.str "Full range of motion")],
          JValue.obj [("name", JValue.str "Dumbbell Curls"), ("sets", JValue.str "3"),
            ("reps", JValue.str "12"), ("tips", JValue.str "Isolate biceps")]])],
      JValue.obj [
        ("day", JValue.str "Thursday"),
        ("focus", JValue.str "Rest Day"),
        ("exercises", JValue.arr [
          JValue.obj [("name", JValue.str "Walking"), ("sets", JValue.str "1"),
            ("reps", JValue.str "30 mins"), ("tips", JValue.str "Leisurely pace")]])],
      JValue.obj [
        ("day", JValue.str "Friday"),
        ("focus", JValue.str "Lower Body & Core"),
        ("exercises", JValue.arr [
          JValue.obj [("name", JValue.str "Romanian Deadlifts"), ("sets", JValue.str "3"),
            ("reps", JValue.str "10"), ("tips", JValue.str "Hinge at hips")],
          JValue.obj [("name", JValue.str "Lunges"), ("sets", JValue.str "3"),
            ("reps", JValue.str "12/leg"), ("tips", JValue.str "Knee shouldn\x27t pass toe")],
          JValue.obj [("name", JValue.str "Leg Raises"), ("sets", JValue.str "3"),
            ("reps", JValue.str "15"), ("tips", JValue.str "Control movement")]])],
      JValue.obj [
        ("day", JValue.str "Saturday"),
        ("focus", JValue.str "Cardio & HIIT"),
        ("exercises", JValue.arr [
          JValue.obj [("name", JValue.str "Burpees"), ("sets", JValue.str "3"),
            ("reps", JValue.str "10"), ("tips", JValue.str "Explosive movement")],
          JValue.obj [("name", JValue.str "Mountain Climbers"), ("sets", JValue.str "3"),
            ("reps", JValue.str "30s"), ("tips", JValue.str "Keep hips low")],
          JValue.obj [("name", JValue.str "Jump Rope"), ("sets", JValue.str "3"),
            ("reps", JValue.str "2 mins"), ("tips", JValue.str "Stay on toes")]])],
      JValue.obj [
        ("day", JValue.str "Sunday"),
        ("focus", JValue.str "Rest & Prep"),
        ("exercises", JValue.arr [
          JValue.obj [("name", JValue.str "Yoga"), ("sets", JValue.str "1"),
            ("reps", JValue.str "20 mins"), ("tips", JValue.str "Relax and breathe")]])]]),
    ("diet_plan", JValue.arr [
      JValue.obj [("meal", JValue.str "Breakfast"),
        ("food", JValue.str "Oatmeal with Berries & Protein Shake"),
        ("calories", JValue.num 450), ("protein", JValue.str "30g"),
        ("carbs", JValue.str "50g"), ("fats", JValue.str "10g")],
      JValue.obj [("meal", JValue.str "Lunch"),
        ("food", JValue.str "Grilled Chicken Salad with Quinoa"),
        ("calories", JValue.num 600), ("protein", JValue.str "45g"),
        ("carbs", JValue.str "40g"), ("fats", JValue.str "20g")],
      JValue.obj [("meal", JValue.str "Snack"),
        ("food", JValue.str "Greek Yogurt & Almonds"),
        ("calories", JValue.num 250), ("protein", JValue.str "15g"),
        ("carbs", JValue.str "10g"), ("fats", JValue.str "15g")],
      JValue.obj [("meal", JValue.str "Dinner"),
        ("food", JValue.str "Baked Salmon with Steamed Broccoli"),
        ("calories", JValue.num 500), ("protein", JValue.str "40g"),
        ("carbs", JValue.str "10g"), ("fats", JValue.str "25g")]]),
    ("summary", JValue.obj [
      ("daily_calories", JValue.num 2200),
      ("macros", JValue.obj [("protein", JValue.str "160g"),
        ("carbs", JValue.str "200g"), ("fats", JValue.str "80g")])])]

/-- `generateFitnessPlan` (aiService.js lines 109-297): the `try` block is
`planAttempt`; any throw is caught and replaced by the bundled fallback plan.
The result is the plan object paired with its provenance. -/
def generateFitnessPlan (beh : Nat → Except UpErr ChatResponse) : Origin × JValue :=
  match planAttempt beh with
  | Except.ok v => (Origin.Generated, v)
  | Except.error _ => (Origin.Fallback, fallbackPlan)

/-- JavaScript regex whitespace class `\s` (and the `trim` whitespace set)
on the characters a text input can produce. -/
def isJsSpace (c : Char) : Bool :=
  c = ' ' || c = '\t' || c = '\n' || c = '\r' || c = '\x0b' || c = '\x0c'

/-- JavaScript `String.prototype.trim`: strip leading and trailing
whitespace. -/
def jsTrim (s : String) : String :=
  String.mk (((s.data.dropWhile isJsSpace).reverse.dropWhile isJsSpace).reverse)

/-- The operation `generateMotivationQuote` retries (aiService.js lines
68-77): make the upstream call and return
`response.choices[0].message.content.trim()`.  A missing first choice or a
null/undefined `content` throws a `TypeError` inside the operation — an
error object with no `status`, hence retryable. -/
def quoteOp (beh : Nat → Except UpErr ChatResponse) (i : Nat) : Except UpErr String :=
  match beh i with
  | Except.error e => Except.error e
  | Except.ok resp =>
    match resp.choices with
    | [] => Except.error ⟨none⟩
    | c :: _ =>
      match c.message.content with
      | none => Except.error ⟨none⟩
      | some s => Except.ok (jsTrim s)

/-- The fixed local fallback quote of `generateMotivationQuote`
(aiService.js line 85). -/
def fallbackQuote : String := "Consistency is the key to progress. Keep showing up!"

/-- `generateMotivationQuote` (aiService.js lines 55-87): run the quote
operation through `retryWithBackoff(op, 2, 1000)`; if it still throws,
catch and return the fixed local fallback quote. -/
def generateMotivationQuote (beh : Nat → Except UpErr ChatResponse) : String :=
  match (retryWithBackoff (quoteOp beh) 2 1000).1 with
  | Except.ok q => q
  | Except.error _ => fallbackQuote

/-! ## The user profile and the prompt template

The profile handed to the pipeline is the form state object: every field
holds the string typed or selected by the user (number inputs hand over
strings; template interpolation stringifies them unchanged). -/

/-- The twelve fields of the form data object (App.jsx InputForm,
lines 54-67). -/
inductive ProfileField where
  | name | age | gender | height | weight | goal
  | fitnessLevel | location | dietPreference
  | sleepHours | waterIntake | stressLevel
deriving DecidableEq, Repr

/-- The form data / user profile object. -/
structure FormData where
  name : String
  age : String
  gender : String
  height : String
  weight : String
  goal : String
  fitnessLevel : String
  location : String
  dietPreference : String
  sleepHours : String
  waterIntake : String
  stressLevel : String
deriving DecidableEq

/-- Read one field of the form data. -/
def getField (fd : FormData) : ProfileField → String
  | ProfileField.name => fd.name
  | ProfileField.age => fd.age
  | ProfileField.gender => fd.gender
  | ProfileField.height => fd.height
  | ProfileField.weight => fd.weight
  | ProfileField.goal => fd.goal
  | ProfileField.fitnessLevel => fd.fitnessLevel
  | ProfileField.location => fd.location
  | ProfileField.dietPreference => fd.dietPreference
  | ProfileField.sleepHours => fd.sleepHours
  | ProfileField.waterIntake => fd.waterIntake
  | ProfileField.stressLevel => fd.stressLevel

/-- One piece of the prompt template literal: a fixed chunk of text or an
interpolated profile field. -/
inductive PromptPart where
  | lit (s : String)
  | field (f : ProfileField)
deriving DecidableEq

/-- The `systemPrompt` template literal of `generateFitnessPlan`
(aiService.js lines 125-163), transcribed chunk by chunk with each
interpolation site marked. -/
def planPromptTemplate : List PromptPart := [
  PromptPart.lit "\n    You are an expert fitness coach and nutritionist. \n    Generate a 7-day Workout and Diet plan for ",
  PromptPart.field ProfileField.name,
  PromptPart.lit ":\n    - Profile: ",
  PromptPart.field ProfileField.age,
  PromptPart.lit " years old, ",
  PromptPart.field ProfileField.gender,
  PromptPart.lit ", ",
  PromptPart.field ProfileField.weight,
  PromptPart.lit "kg, ",
  PromptPart.field ProfileField.height,
  PromptPart.lit "cm.\n    - Fitness Level: ",
  PromptPart.field ProfileField.fitnessLevel,
  PromptPart.lit "\n    - Goal: ",
  PromptPart.field ProfileField.goal,
  PromptPart.lit "\n    - Workout Location: ",
  PromptPart.field ProfileField.location,
  PromptPart.lit "\n    - Dietary Preference: ",
  PromptPart.field ProfileField.dietPreference,
  PromptPart.lit "\n \n    IMPORTANT: Return ONLY valid JSON. Do not add markdown or text outside the JSON.\n    The response must follow this exact structure:\n    \x7b\n      \"workout_plan\": [\n        \x7b \n          \"day\": \"Monday\", \n          \"focus\": \"Muscle Group\", \n          \"exercises\": [\n            \x7b \"name\": \"Exercise\", \"sets\": \"3\", \"reps\": \"12\", \"tips\": \"Tip\" \x7d\n          ] \n        \x7d,\n        ... (repeat for 7 days)\n      ],\n      \"diet_plan\": [\n        \x7b \n          \"meal\": \"Breakfast\", \n          \"food\": \"Description\", \n          \"calories\": 400, \n          \"protein\": \"30g\", \n          \"carbs\": \"40g\", \n          \"fats\": \"10g\" \n        \x7d,\n        ... (include Breakfast, Lunch, Snack, Dinner)\n      ],\n      \"summary\": \x7b\n        \"daily_calories\": 2500,\n        \"macros\": \x7b \"protein\": \"150g\", \"carbs\": \"300g\", \"fats\": \"70g\" \x7d\n      \x7d\n    \x7d\n  "]

/-- Render the prompt template against a profile: the request payload text
`buildPlanRequest` produces. -/
def renderPrompt (fd : FormData) : String :=
  String.join (planPromptTemplate.map (fun p =>
    match p with
    | PromptPart.lit s => s
    | PromptPart.field f => getField fd f))

/-- How many interpolation sites for field `f` the template has. -/
def fieldUses (f : ProfileField) : Nat :=
  planPromptTemplate.count (PromptPart.field f)

/-! ## The multi-step input form (App.jsx InputForm) -/

/-- Full match of `/^\d*\.?\d*$/` (digits, at most one dot). -/
def matchesNumericRe (v : String) : Bool :=
  let l := v.data
  let rest := l.drop (l.takeWhile Char.isDigit).length
  match rest with
  | [] => true
  | '.' :: r => r.all Char.isDigit
  | _ => false

/-- Full match of `/^[a-zA-Z\s]*$/` (letters and whitespace only). -/
def matchesNameRe (v : String) : Bool :=
  v.data.all (fun c => c.isAlpha || isJsSpace c)

/-- The numeric fields guarded by `updateField` (App.jsx line 78). -/
def numericFields : List ProfileField :=
  [ProfileField.age, ProfileField.height, ProfileField.weight,
   ProfileField.sleepHours, ProfileField.waterIntake]

/-- Write one field of the form data. -/
def setField (fd : FormData) (f : ProfileField) (v : String) : FormData :=
  match f with
  | ProfileField.name => ⟨v, fd.age, fd.gender, fd.height, fd.weight, fd.goal,
      fd.fitnessLevel, fd.location, fd.dietPreference, fd.sleepHours, fd.waterIntake,
      fd.stressLevel⟩
  | ProfileField.age => ⟨fd.name, v, fd.gender, fd.height, fd.weight, fd.goal,
      fd.fitnessLevel, fd.location, fd.dietPreference, fd.sleepHours, fd.waterIntake,
      fd.stressLevel⟩
  | ProfileField.gender => ⟨fd.name, fd.age, v, fd.height, fd.weight, fd.goal,
      fd.fitnessLevel, fd.location, fd.dietPreference, fd.sleepHours, fd.waterIntake,
      fd.stressLevel⟩
  | ProfileField.height => ⟨fd.name, fd.age, fd.gender, v, fd.weight, fd.goal,
      fd.fitnessLevel, fd.location, fd.dietPreference, fd.sleepHours, fd.waterIntake,
      fd.stressLevel⟩
  | ProfileField.weight => ⟨fd.name, fd.age, fd.gender, fd.height, v, fd.goal,
      fd.fitnessLevel, fd.location, fd.dietPreference, fd.sleepHours, fd.waterIntake,
      fd.stressLevel⟩
  | ProfileField.goal => ⟨fd.name, fd.age, fd.gender, fd.height, fd.weight, v,
      fd.fitnessLevel, fd.location, fd.dietPreference, fd.sleepHours, fd.waterIntake,
      fd.stressLevel⟩
  | ProfileField.fitnessLevel => ⟨fd.name, fd.age, fd.gender, fd.height, fd.weight,
      fd.goal, v, fd.location, fd.dietPreference, fd.sleepHours, fd.waterIntake,
      fd.stressLevel⟩
  | ProfileField.location => ⟨fd.name, fd.age, fd.gender, fd.height, fd.weight,
      fd.goal, fd.fitnessLevel, v, fd.dietPreference, fd.sleepHours, fd.waterIntake,
      fd.stressLevel⟩
  | ProfileField.dietPreference => ⟨fd.name, fd.age, fd.gender, fd.height, fd.weight,
      fd.goal, fd.fitnessLevel, fd.location, v, fd.sleepHours, fd.waterIntake,
      fd.stressLevel⟩
  | ProfileField.sleepHours => ⟨fd.name, fd.age, fd.gender, fd.height, fd.weight,
      fd.goal, fd.fitnessLevel, fd.location, fd.dietPreference, v, fd.waterIntake,
      fd.stressLevel⟩
  | ProfileField.waterIntake => ⟨fd.name, fd.age, fd.gender, fd.height, fd.weight,
      fd.goal, fd.fitnessLevel, fd.location, fd.dietPreference, fd.sleepHours, v,
      fd.stressLevel⟩
  | ProfileField.stressLevel => ⟨fd.name, fd.age, fd.gender, fd.height, fd.weight,
      fd.goal, fd.fitnessLevel, fd.location, fd.dietPreference, fd.sleepHours,
      fd.waterIntake, v⟩

/-- `updateField` (App.jsx lines 76-98): numeric fields accept only the
empty string or a `/^\d*\.?\d*$/` match; the name field accepts only the
empty string or a `/^[a-zA-Z\s]*$/` match; every other field is written
directly.  A rejected value leaves the state unchanged. -/
def updateField (fd : FormData) (f : ProfileField) (v : String) : FormData :=
  if f ∈ numericFields then
    (if v = "" || matchesNumericRe v then setField fd f v else fd)
  else if f = ProfileField.name then
    (if v = "" || matchesNameRe v then setField fd f v else fd)
  else setField fd f v

/-- `parseFloat` on the digit/dot strings the form admits, as an exact
pair (all-digits value, fraction length): the parsed number is
`n / 10 ^ k`.  The form regex rules out signs, exponents and stray text,
so leading-prefix parsing reduces to this; `none` models NaN. -/
def parseFloatParts (s : String) : Option (Nat × Nat) :=
  let l := s.data
  let ip := l.takeWhile Char.isDigit
  let rest := l.drop ip.length
  let fp := match rest with
    | '.' :: r => r.takeWhile Char.isDigit
    | _ => []
  if ip.isEmpty && fp.isEmpty then none
  else some (natOfDigits (ip ++ fp), fp.length)

/-- The rational value of `parseFloat` on such a string. -/
def parseFloatQ (s : String) : Option ℚ :=
  (parseFloatParts s).map (fun p => (p.1 : ℚ) / (10 : ℚ) ^ p.2)

/-- The per-field test `x !== '' && parseFloat(x) > 0` of
`isCurrentStepValid` (NaN compares false): `n / 10 ^ k` is positive
exactly when `n` is. -/
def isPosNumField (s : String) : Bool :=
  (!(s == "")) &&
    (match parseFloatParts s with
     | some p => decide (0 < p.1)
     | none => false)

/-- Step-1 validity (App.jsx lines 106-118). -/
def step1Valid (fd : FormData) : Bool :=
  (!(jsTrim fd.name == "")) && (!(fd.gender == "")) &&
    isPosNumField fd.age && isPosNumField fd.height && isPosNumField fd.weight &&
    isPosNumField fd.sleepHours && isPosNumField fd.waterIntake

/-- Step-2 validity (App.jsx line 122, string truthiness). -/
def step2Valid (fd : FormData) : Bool :=
  (!(fd.goal == "")) && (!(fd.fitnessLevel == "")) && (!(fd.stressLevel == ""))

/-- Step-3 validity (App.jsx line 127, string truthiness). -/
def step3Valid (fd : FormData) : Bool :=
  (!(fd.location == "")) && (!(fd.dietPreference == ""))

/-- `isCurrentStepValid` (App.jsx lines 105-131). -/
def isCurrentStepValid (step : Nat) (fd : FormData) : Bool :=
  if step = 1 then step1Valid fd
  else if step = 2 then step2Valid fd
  else if step = 3 then step3Valid fd
  else true

/-- Which fields have an input rendered at each step (App.jsx lines
191-396): step 1 renders the personal fields, step 2 the goal fields,
step 3 the preference fields; nothing else is editable. -/
def editableAt (step : Nat) (f : ProfileField) : Bool :=
  if step = 1 then
    decide (f ∈ [ProfileField.name, ProfileField.age, ProfileField.gender,
      ProfileField.height, ProfileField.weight, ProfileField.sleepHours,
      ProfileField.waterIntake])
  else if step = 2 then
    decide (f ∈ [ProfileField.goal, ProfileField.fitnessLevel, ProfileField.stressLevel])
  else if step = 3 then
    decide (f ∈ [ProfileField.location, ProfileField.dietPreference])
  else false

/-- The initial form data (App.jsx lines 54-67): text fields empty, the
three pre-selected dropdown/button groups at their defaults. -/
def initialFormData : FormData :=
  ⟨"", "", "", "", "", "Weight Loss", "Beginner", "Gym", "", "", "", ""⟩

/-- The live state of the form: the current step, the data, and the
profile handed to the dashboard if the form was submitted (navigation
unmounts the form, so a submitted form takes no further events). -/
structure FormState where
  step : Nat
  data : FormData
  submitted : Option FormData
deriving DecidableEq

/-- The initial form state. -/
def initialFormState : FormState := ⟨1, initialFormData, none⟩

/-- One user interaction with the form. -/
inductive FormEvent where
  | input (f : ProfileField) (v : String)
  | next
  | back

/-- One step of the form: typing into a rendered input runs `updateField`;
the Next/Generate button is disabled unless `isCurrentStepValid`, and when
enabled runs `goToNextStep` (advance below step 3, submit at step 3); the
Back button runs `goToPreviousStep`. -/
def formStep (s : FormState) (ev : FormEvent) : FormState :=
  match s.submitted with
  | some _ => s
  | none =>
    match ev with
    | FormEvent.input f v =>
      if editableAt s.step f then ⟨s.step, updateField s.data f v, none⟩ else s
    | FormEvent.next =>
      if isCurrentStepValid s.step s.data then
        (if s.step < 3 then ⟨s.step + 1, s.data, none⟩
         else ⟨s.step, s.data, some s.data⟩)
      else s
    | FormEvent.back =>
      if 1 < s.step then ⟨s.step - 1, s.data, none⟩ else s

/-- Run the form from a state through a sequence of interactions. -/
def runForm (s : FormState) (evs : List FormEvent) : FormState :=
  evs.foldl formStep s

/-! ## Derived notions used by the statements -/

/-- An upstream response whose first choice carries the given body. -/
def mkBodyResp (body : String) : ChatResponse := ⟨[⟨⟨some body⟩⟩]⟩

/-- Look up a key in a JSON object (first binding wins); `none` on
non-objects or missing keys. -/
def getKey (v : JValue) (k : String) : Option JValue :=
  match v with
  | JValue.obj fields => (fields.find? (fun p => p.1 == k)).map Prod.snd
  | _ => none

/-- The string at a key, if the key is present and holds a string. -/
def strField (v : JValue) (k : String) : Option String :=
  match getKey v k with
  | some (JValue.str s) => some s
  | _ => none

/-- Whether a key is present and holds an array. -/
def keyIsArray (v : JValue) (k : String) : Bool :=
  match getKey v k with
  | some (JValue.arr _) => true
  | _ => false

/-- The structural plan-shape test the specification describes for the
Response Validator: a JSON object with the top-level keys present and the
two list fields actually arrays.  (Stated from the specification so the
claims about shape-matching responses can be expressed; the source performs
no such check.) -/
def specMatchesPlanShape (v : JValue) : Bool :=
  keyIsArray v "workout_plan" && keyIsArray v "diet_plan" &&
    (match v with
     | JValue.obj fields => fields.any (fun p => p.1 == "summary")
     | _ => false)

/-- Whether the key holds a non-empty string. -/
def nonEmptyStrAt (v : JValue) (k : String) : Bool :=
  match strField v k with
  | some s => !(s == "")
  | none => false

/-- Whether the key holds a number. -/
def numAt (v : JValue) (k : String) : Bool :=
  match getKey v k with
  | some (JValue.num _) => true
  | _ => false

/-- An exercise entry with all four fields populated. -/
def exerciseOk (x : JValue) : Bool :=
  nonEmptyStrAt x "name" && nonEmptyStrAt x "sets" &&
    nonEmptyStrAt x "reps" && nonEmptyStrAt x "tips"

/-- A workout-day entry with day, focus and a fully populated exercise
list. -/
def workoutEntryOk (d : JValue) : Bool :=
  nonEmptyStrAt d "day" && nonEmptyStrAt d "focus" &&
    (match getKey d "exercises" with
     | some (JValue.arr xs) => xs.all exerciseOk
     | _ => false)

/-- A meal entry with all six fields populated. -/
def mealEntryOk (m : JValue) : Bool :=
  nonEmptyStrAt m "meal" && nonEmptyStrAt m "food" && numAt m "calories" &&
    nonEmptyStrAt m "protein" && nonEmptyStrAt m "carbs" && nonEmptyStrAt m "fats"

/-- The ordered list of `day` fields of a plan's workout entries. -/
def planDays (v : JValue) : Option (List (Option String)) :=
  match getKey v "workout_plan" with
  | some (JValue.arr ds) => some (ds.map (fun d => strField d "day"))
  | _ => none

/-- The ordered list of `meal` fields of a plan's diet entries. -/
def planMeals (v : JValue) : Option (List (Option String)) :=
  match getKey v "diet_plan" with
  | some (JValue.arr ms) => some (ms.map (fun m => strField m "meal"))
  | _ => none

/-- Every workout and diet entry of the plan is fully populated. -/
def planEntriesPopulated (v : JValue) : Bool :=
  (match getKey v "workout_plan" with
   | some (JValue.arr ds) => ds.all workoutEntryOk
   | _ => false) &&
  (match getKey v "diet_plan" with
   | some (JValue.arr ms) => ms.all mealEntryOk
   | _ => false)

/-- The profile constraints of the claim about the form: a non-empty
letters-and-spaces name and five positive numeric fields (value of the
string under `parseFloat`). -/
def profileConstraints (fd : FormData) : Prop :=
  fd.name ≠ "" ∧ matchesNameRe fd.name = true ∧
  (∃ q, parseFloatQ fd.age = some q ∧ 0 < q) ∧
  (∃ q, parseFloatQ fd.height = some q ∧ 0 < q) ∧
  (∃ q, parseFloatQ fd.weight = some q ∧ 0 < q) ∧
  (∃ q, parseFloatQ fd.sleepHours = some q ∧ 0 < q) ∧
  (∃ q, parseFloatQ fd.waterIntake = some q ∧ 0 < q)

/-- The inductive invariant of the form state machine: the step counter
stays in range, the name always matches its regex, step-1 validity holds
once step 1 has been passed, and anything submitted satisfied the
constraints. -/
def FormInv (s : FormState) : Prop :=
  1 ≤ s.step ∧ s.step ≤ 3 ∧ matchesNameRe s.data.name = true ∧
  (2 ≤ s.step → step1Valid s.data = true) ∧
  (∀ fd, s.submitted = some fd → profileConstraints fd)

/-- A concrete interaction sequence that fills each step and submits. -/
def demoEvents : List FormEvent := [
  FormEvent.input ProfileField.name "Ana",
  FormEvent.input ProfileField.age "30",
  FormEvent.input ProfileField.gender "Female",
  FormEvent.input ProfileField.height "165",
  FormEvent.input ProfileField.weight "60",
  FormEvent.input ProfileField.sleepHours "7",
  FormEvent.input ProfileField.waterIntake "2",
  FormEvent.next,
  FormEvent.input ProfileField.stressLevel "Low",
  FormEvent.next,
  FormEvent.input ProfileField.dietPreference "Vegetarian",
  FormEvent.next]

/-- The profile `demoEvents` submits. -/
def anaProfile : FormData :=
  ⟨"Ana", "30", "Female", "165", "60", "Weight Loss", "Beginner", "Gym",
   "Vegetarian", "7", "2", "Low"⟩

/-! ## Helper lemmas about the retry executor -/

/-- A non-retryable first failure is rethrown immediately: one attempt, no
waiting, the error escalated verbatim. -/
theorem retry_terminal_first {α : Type} (beh : Nat → Except UpErr α) (e : UpErr)
    (r d : Nat) (h0 : beh 0 = Except.error e) (hnr : isRetryable e = false) :
    retryWithBackoff beh r d = (Except.error e, 1, []) := by
  cases r with
  | zero => rw [retryWithBackoff, h0]
  | succ n => rw [retryWithBackoff, h0]; simp [hnr]

/-- When every attempt up to the budget fails retryably, the executor makes
`r + 1` attempts, waits the doubling schedule, and escalates the final
error. -/
theorem retry_all_fail_retryable {α : Type} :
    ∀ (r : Nat) (beh : Nat → Except UpErr α) (d : Nat) (es : Nat → UpErr),
      (∀ i, i ≤ r → beh i = Except.error (es i)) →
      (∀ i, i < r → isRetryable (es i) = true) →
      retryWithBackoff beh r d = (Except.error (es r), r + 1, backoffDelays d r)
  | 0, beh, d, es, hf, _ => by
    rw [retryWithBackoff, hf 0 (Nat.le_refl 0)]; rfl
  | r + 1, beh, d, es, hf, hr => by
    have h0 := hf 0 (Nat.zero_le _)
    have hr0 := hr 0 (Nat.succ_pos _)
    have ih := retry_all_fail_retryable r (fun i => beh (i + 1)) (d * 2)
      (fun i => es (i + 1))
      (fun i hi => hf (i + 1) (Nat.succ_le_succ hi))
      (fun i hi => hr (i + 1) (Nat.succ_lt_succ hi))
    rw [retryWithBackoff, h0]
    simp [hr0, ih, backoffDelays]

/-- When every attempt up to the budget fails, the executor's outcome is an
escalated error — it never produces a success value of its own. -/
theorem retry_all_fail_error {α : Type} :
    ∀ (r : Nat) (beh : Nat → Except UpErr α) (d : Nat) (es : Nat → UpErr),
      (∀ i, i ≤ r → beh i = Except.error (es i)) →
      ∃ e, (retryWithBackoff beh r d).1 = Except.error e
  | 0, beh, d, es, hf => ⟨es 0, by rw [retryWithBackoff, hf 0 (Nat.le_refl 0)]⟩
  | r + 1, beh, d, es, hf => by
    have h0 := hf 0 (Nat.zero_le _)
    by_cases hr : isRetryable (es 0) = false
    · exact ⟨es 0, by rw [retryWithBackoff, h0]; simp [hr]⟩
    · obtain ⟨e, he⟩ := retry_all_fail_error r (fun i => beh (i + 1)) (d * 2)
        (fun i => es (i + 1)) (fun i hi => hf (i + 1) (Nat.succ_le_succ hi))
      refine ⟨e, ?_⟩
      rw [Bool.not_eq_false] at hr
      rw [retryWithBackoff, h0]
      simp [hr, he]

/-- `beh 0 = Except.ok a` short-circuits the executor: one attempt, no wait. -/
theorem retry_first_ok {α : Type} (beh : Nat → Except UpErr α) (a : α) (r d : Nat)
    (h : beh 0 = Except.ok a) :
    retryWithBackoff beh r d = (Except.ok a, 1, []) := by
  rw [retryWithBackoff, h]

/-! ## The claims -/

/-- C1: for every user profile and every behavior of the upstream endpoint
(any error thrown on any attempt, or any response returned),
`generateFitnessPlan` resolves to a plan object — a parsed generated plan
when the `try` block succeeds, and the bundled fallback plan substituted at
this validator boundary whenever the `try` block throws; no failure is ever
propagated to the caller (the result type carries no error case). -/
theorem generateFitnessPlan_never_fails :
    ∀ beh : Nat → Except UpErr ChatResponse,
      (∃ v, planAttempt beh = Except.ok v ∧
        generateFitnessPlan beh = (Origin.Generated, v)) ∨
      (∃ e, planAttempt beh = Except.error e ∧
        generateFitnessPlan beh = (Origin.Fallback, fallbackPlan)) := by
  intro beh
  cases h : planAttempt beh with
  | ok v => exact Or.inl ⟨v, rfl, by unfold generateFitnessPlan; rw [h]⟩
  | error e => exact Or.inr ⟨e, rfl, by unfold generateFitnessPlan; rw [h]⟩

/-- C2 (counterexample): the response body `"\x7b\x7d"` — well-formed JSON
missing every required key — is NOT replaced by the fallback plan: the code
checks only that the content is non-empty and parses, not the presence of
the top-level keys, so it returns the parsed empty object as a generated
plan. -/
theorem validate_missing_keys_counterexample :
    generateFitnessPlan (fun _ => Except.ok (mkBodyResp "\x7b\x7d")) ≠
      (Origin.Fallback, fallbackPlan) ∧
    generateFitnessPlan (fun _ => Except.ok (mkBodyResp "\x7b\x7d")) =
      (Origin.Generated, JValue.obj []) := by
  constructor
  · intro h
    exact Origin.noConfusion (congrArg Prod.fst h)
  · rfl

/-- C2 (amended): an empty body and an unparseable body are replaced by the
bundled fallback plan with fallback origin; a well-formed body missing the
required keys is NOT — it is returned as-is with generated origin, because
the validation is only a non-emptiness test plus `JSON.parse`. -/
theorem validate_malformed_bodies :
    generateFitnessPlan (fun _ => Except.ok (mkBodyResp "")) =
      (Origin.Fallback, fallbackPlan) ∧
    generateFitnessPlan (fun _ => Except.ok (mkBodyResp "\x7binvalid json")) =
      (Origin.Fallback, fallbackPlan) ∧
    generateFitnessPlan (fun _ => Except.ok (mkBodyResp "\x7b\x7d")) =
      (Origin.Generated, JValue.obj []) :=
  ⟨rfl, rfl, rfl⟩

/-- C3: every response body that parses as JSON and matches the required
plan shape (extra keys allowed) is returned unmodified with generated
origin. -/
theorem validate_wellformed_passthrough (body : String) (v : JValue)
    (hp : jsonParse body = some v) (_hs : specMatchesPlanShape v = true) :
    generateFitnessPlan (fun _ => Except.ok (mkBodyResp body)) =
      (Origin.Generated, v) := by
  have hne : body ≠ "" := by
    intro h
    rw [h] at hp
    exact Option.noConfusion hp
  unfold generateFitnessPlan planAttempt
  rw [retry_first_ok (fun _ => Except.ok (mkBodyResp body)) (mkBodyResp body) 2 1000 rfl]
  simp [mkBodyResp, hne, hp]

/-- Witness for C3 at a concrete shape-matching body. -/
theorem validate_wellformed_passthrough_witness :
    generateFitnessPlan (fun _ => Except.ok
        (mkBodyResp "\x7b\"workout_plan\":[],\"diet_plan\":[],\"summary\":\x7b\x7d\x7d")) =
      (Origin.Generated, JValue.obj [("workout_plan", JValue.arr []),
        ("diet_plan", JValue.arr []), ("summary", JValue.obj [])]) :=
  validate_wellformed_passthrough
    "\x7b\"workout_plan\":[],\"diet_plan\":[],\"summary\":\x7b\x7d\x7d"
    (JValue.obj [("workout_plan", JValue.arr []), ("diet_plan", JValue.arr []),
      ("summary", JValue.obj [])]) rfl rfl

/-- C4: an upstream failing retryably on every call, under the default
plan-generation policy (2 retries, 1000 ms initial delay), causes exactly 3
sequential attempts with waits of 1000 ms then 2000 ms, after which the
final attempt error escalates. -/
theorem retry_default_policy_three_attempts {α : Type}
    (beh : Nat → Except UpErr α) (es : Nat → UpErr)
    (hfail : ∀ i, beh i = Except.error (es i))
    (hretry : ∀ i, isRetryable (es i) = true) :
    retryWithBackoff beh 2 1000 = (Except.error (es 2), 3, [1000, 2000]) :=
  retry_all_fail_retryable 2 beh 1000 es (fun i _ => hfail i) (fun i _ => hretry i)

/-- Witness for C4: an upstream answering HTTP 500 forever. -/
theorem retry_default_policy_three_attempts_witness :
    retryWithBackoff (fun _ => (Except.error ⟨some 500⟩ : Except UpErr ChatResponse))
        2 1000 =
      (Except.error ⟨some 500⟩, 3, [1000, 2000]) :=
  retry_default_policy_three_attempts (fun _ => Except.error ⟨some 500⟩)
    (fun _ => ⟨some 500⟩) (fun _ => rfl) (fun _ => rfl)

/-- C5: a failure is retryable exactly when the error carries no status
code, a status of at least 500, or status 429 (for HTTP statuses, which are
at least 100; JavaScript truthiness folds a literal 0 status into the
"no status" case); any other status is terminal, so an upstream answering
HTTP 401 on the first attempt gets exactly one attempt and the error is
thrown unchanged. -/
theorem retry_classification :
    isRetryable ⟨none⟩ = true ∧
    (∀ s : Nat, 100 ≤ s → (isRetryable ⟨some s⟩ = true ↔ 500 ≤ s ∨ s = 429)) ∧
    (∀ (α : Type) (beh : Nat → Except UpErr α) (r d : Nat),
      beh 0 = Except.error ⟨some 401⟩ →
      retryWithBackoff beh r d = (Except.error ⟨some 401⟩, 1, [])) := by
  refine ⟨rfl, fun s hs => ?_,
    fun α beh r d h0 => retry_terminal_first beh _ r d h0 (by decide)⟩
  simp only [isRetryable, Bool.or_eq_true, beq_iff_eq, decide_eq_true_eq]
  omega

/-- Witness for C5 at statuses 401 (terminal) and 503 (retryable). -/
theorem retry_classification_witness :
    (isRetryable ⟨some 503⟩ = true) ∧
    retryWithBackoff (fun _ => (Except.error ⟨some 401⟩ : Except UpErr ChatResponse))
        2 1000 =
      (Except.error ⟨some 401⟩, 1, []) :=
  ⟨(retry_classification.2.1 503 (by decide)).2 (Or.inl (by decide)),
   retry_classification.2.2 ChatResponse (fun _ => Except.error ⟨some 401⟩) 2 1000 rfl⟩

/-- C7: the bundled fallback plan has exactly 7 workout entries whose days
are Monday through Sunday in order, exactly 4 diet entries covering
Breakfast, Lunch, Snack, Dinner, and every entry field populated. -/
theorem fallbackPlan_wellFormed :
    planDays fallbackPlan = some [some "Monday", some "Tuesday", some "Wednesday",
      some "Thursday", some "Friday", some "Saturday", some "Sunday"] ∧
    planMeals fallbackPlan = some [some "Breakfast", some "Lunch", some "Snack",
      some "Dinner"] ∧
    planEntriesPopulated fallbackPlan = true :=
  ⟨rfl, rfl, rfl⟩

/-- C8: the executor propagates failures and never fabricates a success: a
terminal first failure is rethrown unchanged after one attempt, and when
every attempt within the budget fails the outcome is an escalated error. -/
theorem retry_propagates_failure :
    (∀ (α : Type) (beh : Nat → Except UpErr α) (e : UpErr) (r d : Nat),
      beh 0 = Except.error e → isRetryable e = false →
      retryWithBackoff beh r d = (Except.error e, 1, [])) ∧
    (∀ (α : Type) (beh : Nat → Except UpErr α) (es : Nat → UpErr) (r d : Nat),
      (∀ i, i ≤ r → beh i = Except.error (es i)) →
      ∃ e, (retryWithBackoff beh r d).1 = Except.error e) :=
  ⟨fun _ beh e r d h0 hnr => retry_terminal_first beh e r d h0 hnr,
   fun _ beh es r d hf => retry_all_fail_error r beh d es hf⟩

/-- Witness for C8: a terminal 401 upstream and an exhausted 503 upstream. -/
theorem retry_propagates_failure_witness :
    retryWithBackoff (fun _ => (Except.error ⟨some 401⟩ : Except UpErr Nat)) 2 1000 =
      (Except.error ⟨some 401⟩, 1, []) ∧
    ∃ e, (retryWithBackoff (fun _ => (Except.error ⟨some 503⟩ : Except UpErr Nat))
        2 1000).1 = Except.error e :=
  ⟨retry_propagates_failure.1 Nat (fun _ => Except.error ⟨some 401⟩) ⟨some 401⟩ 2 1000
      rfl (by decide),
   retry_propagates_failure.2 Nat (fun _ => Except.error ⟨some 503⟩)
      (fun _ => ⟨some 503⟩) 2 1000 (fun _ _ => rfl)⟩

/-- C10: `generateMotivationQuote` never rejects: it resolves to the trimmed
upstream quote when the retried call succeeds, and to the exact fixed local
quote string whenever the retried call ultimately fails for any reason. -/
theorem generateMotivationQuote_never_rejects :
    (∀ beh : Nat → Except UpErr ChatResponse,
      (∃ q, (retryWithBackoff (quoteOp beh) 2 1000).1 = Except.ok q ∧
        generateMotivationQuote beh = q) ∨
      generateMotivationQuote beh =
        "Consistency is the key to progress. Keep showing up!") ∧
    (∀ (beh : Nat → Except UpErr ChatResponse) (e : UpErr),
      (retryWithBackoff (quoteOp beh) 2 1000).1 = Except.error e →
      generateMotivationQuote beh =
        "Consistency is the key to progress. Keep showing up!") := by
  constructor
  · intro beh
    cases h : (retryWithBackoff (quoteOp beh) 2 1000).1 with
    | ok q => exact Or.inl ⟨q, rfl, by unfold generateMotivationQuote; rw [h]⟩
    | error e => exact Or.inr (by unfold generateMotivationQuote; rw [h]; rfl)
  · intro beh e h
    unfold generateMotivationQuote
    rw [h]
    rfl

/-- Witness for C10: an upstream that always answers HTTP 500. -/
theorem generateMotivationQuote_never_rejects_witness :
    generateMotivationQuote (fun _ => Except.error ⟨some 500⟩) =
      "Consistency is the key to progress. Keep showing up!" :=
  generateMotivationQuote_never_rejects.2 (fun _ => Except.error ⟨some 500⟩)
    ⟨some 500⟩ rfl

/-- C6 (counterexample): the prompt template does not interpolate
`sleepHours` at all (nor `waterIntake` or `stressLevel`), so it is false
that every one of the twelve profile fields appears exactly once. -/
theorem buildPlanRequest_missing_fields_counterexample :
    fieldUses ProfileField.sleepHours = 0 ∧
    ¬ (∀ f : ProfileField, fieldUses f = 1) :=
  ⟨by decide, fun h => absurd (h ProfileField.sleepHours) (by decide)⟩

/-- C6 (amended): prompt building is deterministic (equal profiles give
equal payload text), and the template interpolates exactly the nine fields
name, age, gender, weight, height, goal, fitnessLevel, location and
dietPreference, each exactly once; sleepHours, waterIntake and stressLevel
are not interpolated. -/
theorem buildPlanRequest_deterministic_fields :
    (∀ p q : FormData, p = q → renderPrompt p = renderPrompt q) ∧
    (∀ f : ProfileField, fieldUses f =
      (if f ∈ [ProfileField.name, ProfileField.age, ProfileField.gender,
          ProfileField.weight, ProfileField.height, ProfileField.goal,
          ProfileField.fitnessLevel, ProfileField.location,
          ProfileField.dietPreference] then 1 else 0)) := by
  refine ⟨fun p q h => by rw [h], fun f => ?_⟩
  cases f <;> decide

/-- Witness for C6 at a concrete profile and field. -/
theorem buildPlanRequest_deterministic_fields_witness :
    renderPrompt anaProfile = renderPrompt anaProfile ∧
    fieldUses ProfileField.name = 1 :=
  ⟨buildPlanRequest_deterministic_fields.1 anaProfile anaProfile rfl,
   (buildPlanRequest_deterministic_fields.2 ProfileField.name).trans (by decide)⟩

/-! ## Helper lemmas about the form -/

/-- The empty string matches the name regex. -/
theorem matchesNameRe_empty : matchesNameRe "" = true := rfl

/-- `updateField` can only write the name field through its letters/spaces
guard, so the name always matches its regex. -/
theorem updateField_name_re (fd : FormData) (f : ProfileField) (v : String)
    (h : matchesNameRe fd.name = true) :
    matchesNameRe (updateField fd f v).name = true := by
  cases f
  case name =>
    simp [updateField, numericFields, setField]
    split
    · rename_i hv
      rcases hv with rfl | hv
      · exact matchesNameRe_empty
      · exact hv
    · exact h
  all_goals simp [updateField, numericFields, setField, h] <;> split <;> exact h

/-- Editing a field of step 2 or step 3 leaves step-1 validity unchanged. -/
theorem updateField_step1_invariant (fd : FormData) (f : ProfileField) (v : String)
    (h : editableAt 2 f = true ∨ editableAt 3 f = true) :
    step1Valid (updateField fd f v) = step1Valid fd := by
  cases f <;> simp [editableAt] at h <;> rfl

/-- A passing `x !== '' && parseFloat(x) > 0` test yields a positive
rational `parseFloat` value. -/
theorem isPosNumField_pos {s : String} (h : isPosNumField s = true) :
    ∃ q, parseFloatQ s = some q ∧ 0 < q := by
  unfold isPosNumField at h
  rw [Bool.and_eq_true] at h
  obtain ⟨-, h2⟩ := h
  cases hp : parseFloatParts s with
  | none => rw [hp] at h2; cases h2
  | some p =>
    rw [hp] at h2
    refine ⟨(p.1 : ℚ) / (10 : ℚ) ^ p.2, by rw [parseFloatQ, hp]; rfl, ?_⟩
    exact div_pos (by exact_mod_cast of_decide_eq_true h2) (pow_pos (by norm_num) _)

/-- A string whose boolean non-emptiness test passes is non-empty. -/
theorem ne_empty_of_bne {s : String} (h : (!(s == "")) = true) : s ≠ "" := by
  simpa using h

/-- A string with non-empty trim is non-empty. -/
theorem ne_empty_of_trim_ne {s : String} (h : jsTrim s ≠ "") : s ≠ "" :=
  fun he => h (by rw [he]; rfl)

/-- A form data passing step-1 validation with a regex-conforming name
satisfies the profile constraints. -/
theorem profileConstraints_of_step1 (da : FormData)
    (hname : matchesNameRe da.name = true) (hs1 : step1Valid da = true) :
    profileConstraints da := by
  simp only [step1Valid, Bool.and_eq_true, and_assoc] at hs1
  obtain ⟨ha, hb, hc, hd, he2, hf2, hg⟩ := hs1
  exact ⟨ne_empty_of_trim_ne (ne_empty_of_bne ha), hname, isPosNumField_pos hc,
    isPosNumField_pos hd, isPosNumField_pos he2, isPosNumField_pos hf2,
    isPosNumField_pos hg⟩

/-- Reduction: typing into a rendered input. -/
theorem formStep_input_eq (st : Nat) (da : FormData) (f : ProfileField) (v : String)
    (he : editableAt st f = true) :
    formStep ⟨st, da, none⟩ (FormEvent.input f v) = ⟨st, updateField da f v, none⟩ := by
  simp [formStep, he]

/-- Reduction: a valid Next below step 3 advances. -/
theorem formStep_next_advance (st : Nat) (da : FormData)
    (hv : isCurrentStepValid st da = true) (hlt : st < 3) :
    formStep ⟨st, da, none⟩ FormEvent.next = ⟨st + 1, da, none⟩ := by
  simp [formStep, hv, hlt]

/-- Reduction: a valid Generate on the final step submits the data. -/
theorem formStep_next_submit (st : Nat) (da : FormData)
    (hv : isCurrentStepValid st da = true) (hge : ¬ st < 3) :
    formStep ⟨st, da, none⟩ FormEvent.next = ⟨st, da, some da⟩ := by
  simp [formStep, hv, hge]

/-- Reduction: Back above step 1 retreats. -/
theorem formStep_back_eq (st : Nat) (da : FormData) (hgt : 1 < st) :
    formStep ⟨st, da, none⟩ FormEvent.back = ⟨st - 1, da, none⟩ := by
  simp [formStep, hgt]

/-- The invariant holds initially. -/
theorem initialFormState_inv : FormInv initialFormState :=
  ⟨by decide, by decide, rfl, fun h2 => absurd h2 (by decide),
   fun _ hfd => by cases hfd⟩

/-- One form interaction preserves the invariant. -/
theorem formStep_inv (s : FormState) (ev : FormEvent) (h : FormInv s) :
    FormInv (formStep s ev) := by
  obtain ⟨st, da, su⟩ := s
  obtain ⟨h1, h3, hname, hstep1, hsub⟩ := h
  dsimp only at h1 h3 hname hstep1 hsub
  cases su with
  | some fd => exact ⟨h1, h3, hname, hstep1, hsub⟩
  | none =>
    cases ev with
    | input f v =>
      by_cases he : editableAt st f = true
      · rw [formStep_input_eq st da f v he]
        dsimp only [FormInv]
        refine ⟨h1, h3, updateField_name_re da f v hname, fun h2 => ?_,
          fun fd hfd => by cases hfd⟩
        have hor : editableAt 2 f = true ∨ editableAt 3 f = true := by
          have hst : st = 2 ∨ st = 3 := by omega
          rcases hst with hst | hst
          · exact Or.inl (hst ▸ he)
          · exact Or.inr (hst ▸ he)
        rw [updateField_step1_invariant da f v hor]
        exact hstep1 h2
      · have hne : formStep ⟨st, da, none⟩ (FormEvent.input f v) = ⟨st, da, none⟩ := by
          simp [formStep, he]
        rw [hne]
        exact ⟨h1, h3, hname, hstep1, fun fd hfd => by cases hfd⟩
    | next =>
      by_cases hv : isCurrentStepValid st da = true
      · by_cases hlt : st < 3
        · rw [formStep_next_advance st da hv hlt]
          dsimp only [FormInv]
          refine ⟨by omega, by omega, hname, fun h2 => ?_, fun fd hfd => by cases hfd⟩
          by_cases hst : st = 1
          · subst hst
            simpa [isCurrentStepValid] using hv
          · exact hstep1 (by omega)
        · rw [formStep_next_submit st da hv hlt]
          dsimp only [FormInv]
          have hst3 : st = 3 := by omega
          refine ⟨h1, h3, hname, hstep1, fun fd hfd => ?_⟩
          cases hfd
          have hs1 : step1Valid da = true := hstep1 (by omega)
          exact profileConstraints_of_step1 da hname hs1
      · have hne : formStep ⟨st, da, none⟩ FormEvent.next = ⟨st, da, none⟩ := by
          simp [formStep, hv]
        rw [hne]
        exact ⟨h1, h3, hname, hstep1, fun fd hfd => by cases hfd⟩
    | back =>
      by_cases hgt : 1 < st
      · rw [formStep_back_eq st da hgt]
        dsimp only [FormInv]
        exact ⟨by omega, by omega, hname, fun h2 => hstep1 (by omega),
          fun fd hfd => by cases hfd⟩
      · have hne : formStep ⟨st, da, none⟩ FormEvent.back = ⟨st, da, none⟩ := by
          simp [formStep, hgt]
        rw [hne]
        exact ⟨h1, h3, hname, hstep1, fun fd hfd => by cases hfd⟩

/-- Any interaction sequence preserves the invariant. -/
theorem runForm_inv : ∀ (evs : List FormEvent) (s : FormState),
    FormInv s → FormInv (runForm s evs)
  | [], _, h => h
  | e :: t, s, h => runForm_inv t (formStep s e) (formStep_inv s e h)

/-- C9: every profile the form hands to the dashboard satisfies the profile
constraints — non-empty letters-and-spaces name and positive age, height,
weight, sleep hours and water intake; an interaction sequence whose data
violates them never reaches the submit step. -/
theorem form_submits_only_valid_profiles (evs : List FormEvent) (fd : FormData)
    (h : (runForm initialFormState evs).submitted = some fd) :
    profileConstraints fd :=
  (runForm_inv evs initialFormState initialFormState_inv).2.2.2.2 fd h

/-- Witness for C9: a concrete filled-and-submitted run. -/
theorem form_submits_only_valid_profiles_witness : profileConstraints anaProfile :=
  form_submits_only_valid_profiles demoEvents anaProfile (by decide)

end FitnessCoach
